import Mathlib

/-!
Verification of the road-test voice recorder (src/app.js) against its
natural-language specification.  The relevant parts of the source are
embedded shallowly below: the per-sample PCM16 conversion, the transcript
classifier (directTypeMatching, smartRecognitionMultiple,
keywordRecognitionMultiple, handleUserQuestions, processVoiceInput), the
session/record store (addRecord, deleteLastRecord, startTest, pauseTest,
stopTest, getCurrentSessionRecords) and the WebSocket reconnect policy
(handleWebSocketReconnect, close-code classification).
-/

/- ===================== PCM16 conversion (C1) ===================== -/

/-- Truncation toward zero, the conversion a JS `Int16Array` element
assignment applies to an in-range number (ToInt16 truncates the fractional
part toward zero; no wrap-around occurs for our in-range inputs). -/
def truncToZero (q : ℚ) : ℤ := if 0 ≤ q then ⌊q⌋ else ⌈q⌉

/-- Clamp a sample to [-1, 1]: `Math.max(-1, Math.min(1, s))`
(src/app.js line 250 and line 1396). -/
def clampUnit (s : ℚ) : ℚ := max (-1) (min 1 s)

/-- Per-sample PCM16 conversion used by `sendPCMDataDirectly`
(src/app.js lines 1394-1398) and by the `onaudioprocess` handler in
`startAudioRecording` (src/app.js lines 246-252):
`s = Math.max(-1, Math.min(1, x)); out = s < 0 ? s * 0x8000 : s * 0x7FFF`
stored into an `Int16Array` (truncation toward zero). -/
def pcm16Sample (s : ℚ) : ℤ :=
  let c := clampUnit s
  if c < 0 then truncToZero (c * 32768) else truncToZero (c * 32767)

/-- Modelled from the spec sentence of section 8: output equals
`round(s * 32768)` clamped to [-32768, 32767].  This definition follows the
words of the spec (round half away handled by the Mathlib `round`, which is
irrelevant at the counterexample input, where the scaled value is exact). -/
def pcm16SpecRound (s : ℚ) : ℤ := max (-32768) (min 32767 (round (s * 32768)))

/- ===================== string utilities ===================== -/

/-- JS whitespace (the regex class from the source) together with the
characters the strip regex of `directTypeMatching` adds explicitly
(src/app.js line 1687); the union is the same set as JS whitespace. -/
def isJsSpace (c : Char) : Bool :=
  c = ' ' || c = '\t' || c = '\n' || c = '\x0b' || c = '\x0c' || c = '\r' ||
  c = '\u00A0' || c = '\u1680' || ('\u2000' ≤ c && c ≤ '\u200A') ||
  c = '\u2028' || c = '\u2029' || c = '\u202F' || c = '\u205F' ||
  c = '\u3000' || c = '\uFEFF'

/-- Punctuation stripped by `directTypeMatching`
(src/app.js line 1688): `[，,。.！!？?；;：:“”‘’「」【】（）()]`. -/
def cnPunctChars : List Char := "，,。.！!？?；;：:“”‘’「」【】（）()".toList

/-- Membership in the punctuation strip class. -/
def isCnPunct (c : Char) : Bool := cnPunctChars.contains c

/-- Lower-casing applied by the source via `toLowerCase()`; modelled for
ASCII (all cased characters occurring in the pattern tables and test
inputs are ASCII; CJK characters are unaffected by either). -/
def jsToLower (c : Char) : Char := c.toLower

/-- Boolean infix test on character lists (JS `String.prototype.includes`). -/
def listIsInfixOf (pat : List Char) : List Char → Bool
  | [] => pat.isEmpty
  | c :: rest => pat.isPrefixOf (c :: rest) || listIsInfixOf pat rest

/-- JS `a.includes(b)` on strings. -/
def strContains (s pat : String) : Bool := listIsInfixOf pat.toList s.toList

/-- JS `trim()`: drop leading and trailing whitespace. -/
def jsTrim (cs : List Char) : List Char :=
  ((cs.dropWhile isJsSpace).reverse.dropWhile isJsSpace).reverse

/- ===================== transcript classifier ===================== -/

/-- One entry of the `directMatches` table of `directTypeMatching`
(src/app.js lines 1695-1727). -/
structure DirectMatchGroup where
  patterns : List String
  type : String
  subType : String

/-- The `directMatches` table (src/app.js lines 1695-1727), in source order:
safety, efficiency, experience. -/
def directMatches : List DirectMatchGroup :=
  [ ⟨["安全接管", "安全问题", "安全",
      "safety", "接管安全", "安全的接管",
      "安全事件", "安全状况", "安全情况"], "安全接管", "安全接管"⟩,
    ⟨["效率接管", "效率问题", "效率",
      "efficiency", "接管效率", "效率的接管",
      "效率事件", "效率状况", "效率情况"], "效率接管", "效率接管"⟩,
    ⟨["体验问题", "体验", "experience", "体验不好",
      "体验事件", "体验状况", "体验情况", "用户体验"], "体验问题", "体验问题"⟩ ]

/-- One entry of the `fuzzyMatches` table (src/app.js lines 1741-1745). -/
structure FuzzyMatchGroup where
  pattern : String
  type : String
  subType : String
  minLength : Nat

/-- The `fuzzyMatches` table (src/app.js lines 1741-1745). -/
def fuzzyMatches : List FuzzyMatchGroup :=
  [ ⟨"安全", "安全接管", "安全接管", 2⟩,
    ⟨"效率", "效率接管", "效率接管", 2⟩,
    ⟨"体验", "体验问题", "体验问题", 2⟩ ]

/-- Text normalization of `directTypeMatching` (src/app.js lines 1686-1690):
strip all whitespace variants, strip the punctuation class, lower-case
(the final `trim()` is a no-op after whitespace removal). -/
def cleanForDirect (text : List Char) : List Char :=
  ((text.filter (fun c => !isJsSpace c)).filter (fun c => !isCnPunct c)).map jsToLower

/-- Pattern normalization inside the exact-match loop
(src/app.js line 1732): lower-case, then strip whitespace variants. -/
def cleanDirectPattern (p : String) : List Char :=
  (p.toList.map jsToLower).filter (fun c => !isJsSpace c)

/-- The function `directTypeMatching` (src/app.js lines 1684-1758): exact or
substring match against the canonical tables, else fuzzy single-token match
with a minimum normalized length; returns the (type, subType) pair. -/
def directTypeMatching (text : String) : Option (String × String) :=
  let clean := cleanForDirect text.toList
  let exact := directMatches.findSome? fun g =>
    if g.patterns.any fun p =>
        let cp := cleanDirectPattern p
        clean == cp || listIsInfixOf cp clean
    then some (g.type, g.subType) else none
  match exact with
  | some r => some r
  | none =>
      fuzzyMatches.findSome? fun g =>
        if listIsInfixOf g.pattern.toList clean && g.minLength ≤ clean.length
        then some (g.type, g.subType) else none

/-- One pattern of the smart-recognition tables: a regex alternation of
literal strings together with the subType it reports. -/
structure SmartPattern where
  alts : List String
  subType : String

/-- The `experiencePatterns` table of `smartRecognitionMultiple`
(src/app.js lines 1836-1842). -/
def experiencePatterns : List SmartPattern :=
  [ ⟨["画龙", "画蛇", "龙", "蛇行", "摆尾", "左右摆", "摇摆"], "画龙"⟩,
    ⟨["重刹", "刹车重", "急刹", "制动重", "刹车", "急停", "突然刹车"], "重刹"⟩,
    ⟨["急加速", "加速急", "冲击", "突然加速", "猛加速", "提速快"], "急加速"⟩,
    ⟨["颠簸", "震动", "不平稳", "抖动", "摇晃", "晃动", "不稳"], "颠簸"⟩,
    ⟨["转向重", "方向盘重", "打方向重", "方向重", "转向沉", "打方向沉"], "转向重"⟩ ]

/-- The `efficiencyPatterns` table of `smartRecognitionMultiple`
(src/app.js lines 1845-1851). -/
def efficiencyPatterns : List SmartPattern :=
  [ ⟨["卡死", "卡住", "不动", "停住", "卡顿", "死机", "停车", "不走"], "卡死不动"⟩,
    ⟨["慢", "龟速", "太慢", "速度慢", "很慢", "超慢", "开得慢", "跑得慢"], "速度过慢"⟩,
    ⟨["反应慢", "迟钝", "延迟", "反应迟钝", "响应慢", "慢半拍"], "反应迟钝"⟩,
    ⟨["路径错误", "走错", "路线错", "路径错", "走错路", "线路错"], "路径错误"⟩,
    ⟨["效率接管", "效率问题", "效率", "efficiency"], "效率接管"⟩ ]

/-- The `safetyPatterns` table of `smartRecognitionMultiple`
(src/app.js lines 1854-1860). -/
def safetyPatterns : List SmartPattern :=
  [ ⟨["碰撞", "撞", "危险", "要撞", "快撞", "撞车", "碰车"], "碰撞风险"⟩,
    ⟨["压线", "越线", "跨线", "踩线", "出线", "过线"], "压线"⟩,
    ⟨["逆行", "反向", "开反了", "走反", "方向反"], "逆行"⟩,
    ⟨["闯红灯", "红灯", "冲红灯", "闯灯"], "闯红灯"⟩,
    ⟨["安全接管", "安全问题", "安全", "safety"], "安全接管"⟩ ]

/-- Try the alternatives of an alternation at one position, in pattern
order, as the JS regex engine does. -/
def matchAltAt (alts : List String) (cs : List Char) : Option String :=
  alts.findSome? fun a => if a.toList.isPrefixOf cs then some a else none

/-- First (leftmost, then by alternative order) match of an alternation of
literals: the value of `text.match(/(a|b|...)/)[0]`. -/
def regexAltFirstMatch (alts : List String) : List Char → Option String
  | [] => matchAltAt alts []
  | c :: rest =>
      match matchAltAt alts (c :: rest) with
      | some m => some m
      | none => regexAltFirstMatch alts rest

/-- One classification result: type, subType, and the matched substring
(JS field `matchedText`). -/
structure ClassResult where
  type : String
  subType : String
  matchedText : String
deriving DecidableEq

/-- One category pass of `smartRecognitionMultiple`
(src/app.js lines 1863-1896): every pattern whose regex matches somewhere
in the raw text contributes one result. -/
def smartScanCategory (cs : List Char) (ty : String) (pats : List SmartPattern) :
    List ClassResult :=
  pats.filterMap fun p =>
    (regexAltFirstMatch p.alts cs).map fun m => ⟨ty, p.subType, m⟩

/-- The function `smartRecognitionMultiple` (src/app.js lines 1832-1899);
the JS null-for-empty return is represented by the empty list. -/
def smartRecognitionMultiple (text : String) : List ClassResult :=
  let cs := text.toList
  smartScanCategory cs "体验问题" experiencePatterns
    ++ smartScanCategory cs "效率接管" efficiencyPatterns
    ++ smartScanCategory cs "安全接管" safetyPatterns

/-- Characters excluded from the freeform capture group of the delimiter
regex of `keywordRecognitionMultiple` (src/app.js line 1905):
the class excludes the listed punctuation and whitespace. -/
def isKwExcluded (c : Char) : Bool :=
  c = '，' || c = ',' || c = '；' || c = ';' || c = '。' || c = '.' ||
  c = '!' || c = '！' || isJsSpace c

/-- Try the delimiter regex `label[-－](allowed+)` at one position: on
success return the full matched substring, the captured run, and the rest
of the text after the match. -/
def kwMatchAt (label : List Char) (cs : List Char) :
    Option ((List Char × List Char) × List Char) :=
  if label.isPrefixOf cs then
    match cs.drop label.length with
    | [] => none
    | h :: t =>
        if h = '-' || h = '－' then
          let run := t.takeWhile (fun c => !isKwExcluded c)
          if run.isEmpty then none
          else some ((label ++ h :: run, run), t.drop run.length)
        else none
  else none

/-- All non-overlapping matches of the delimiter regex, scanning left to
right as a JS global regex does.  The fuel argument (instantiated with the
text length) only makes the recursion structural; each step consumes at
least one character, so the fuel never runs out. -/
def kwScanAux (label : List Char) : Nat → List Char → List (List Char × List Char)
  | 0, _ => []
  | _, [] => []
  | fuel + 1, c :: rest =>
      match kwMatchAt label (c :: rest) with
      | some (m, remaining) => m :: kwScanAux label fuel remaining
      | none => kwScanAux label fuel rest

/-- One category pass of `keywordRecognitionMultiple`
(src/app.js lines 1905-1947): every match contributes a result whose
subType is the matched text with the label and delimiter removed and
trimmed (the JS emptiness test on the subType is kept, although the
captured run is never empty). -/
def keywordScanCategory (label ty : String) (text : String) : List ClassResult :=
  (kwScanAux label.toList text.toList.length text.toList).filterMap fun m =>
    let sub := jsTrim m.2
    if sub.isEmpty then none
    else some ⟨ty, String.mk sub, String.mk m.1⟩

/-- The function `keywordRecognitionMultiple` (src/app.js lines 1901-1950),
categories in source order: experience, safety, efficiency.  The JS
null-for-empty return is represented by the empty list. -/
def keywordRecognitionMultiple (text : String) : List ClassResult :=
  keywordScanCategory "体验问题" "体验问题" text
    ++ keywordScanCategory "安全接管" "安全接管" text
    ++ keywordScanCategory "效率接管" "效率接管" text

/-- The `questionPatterns` table of `handleUserQuestions`
(src/app.js lines 855-872). -/
def questionGroups : List (List String × String) :=
  [ (["我想知道", "想知道", "怎么", "如何", "什么", "帮助", "帮我", "我不知道", "不知道"],
     "💡 使用提示：说出具体问题类型，如\x22安全接管-压线\x22、\x22效率接管-卡死\x22、\x22体验问题-重刹\x22"),
    (["有什么", "都有什么", "支持什么", "可以说什么"],
     "📋 支持的问题类型：安全接管(压线/碰撞/逆行)、效率接管(卡死/速度慢)、体验问题(重刹/急加速/颠簸)"),
    (["测试", "开始", "开始测试", "怎么开始"],
     "🚀 点击\x22开始测试\x22按钮，然后说话描述遇到的问题即可自动记录"),
    (["说什么", "怎么说", "格式", "怎么操作"],
     "🗣️ 直接说问题，如：\x22安全接管压线\x22、\x22刹车很重\x22、\x22车子卡死了\x22等") ]

/-- The function `handleUserQuestions` (src/app.js lines 851-886): match
against the help phrase groups on the lower-cased trimmed text, then the
blank or punctuation-only prompt. -/
def handleUserQuestions (text : String) : Option String :=
  let clean := jsTrim (text.toList.map jsToLower)
  match questionGroups.findSome? fun g =>
      if g.1.any (fun p => listIsInfixOf p.toList clean) then some g.2 else none with
  | some r => some r
  | none =>
      if clean.length = 0 ||
          clean.all (fun c => c = '。' || c = '，' || c = ',' || c = '.' || isJsSpace c)
      then some "🎤 请清楚地说出遇到的问题"
      else none

/-- Outcome of one `processVoiceInput` call: the delete action, a list of
(type, subType, originalText) entries handed to `addRecord` one by one, a
help message for display only, or no recognition. -/
inductive VoiceAction where
  | deleteLast : VoiceAction
  | addRecords : List ClassResult → VoiceAction
  | help : String → VoiceAction
  | unrecognized : VoiceAction
deriving DecidableEq

/-- The function `processVoiceInput` (src/app.js lines 798-849): delete
phrases first, then direct type matching (sole result, original text is the
whole utterance), then smart multi-pattern recognition, then delimiter
keyword recognition (for both, the original text of each entry is its
matched text, falling back to the whole utterance when empty), then the
question handler, else unrecognized. -/
def processVoiceInput (text : String) : VoiceAction :=
  if strContains text "删除上一条" || strContains text "撤销" then
    .deleteLast
  else
    match directTypeMatching text with
    | some (ty, sub) => .addRecords [⟨ty, sub, text⟩]
    | none =>
        let smart := smartRecognitionMultiple text
        if smart.isEmpty = false then
          .addRecords (smart.map fun r =>
            { r with matchedText := if r.matchedText = "" then text else r.matchedText })
        else
          let kw := keywordRecognitionMultiple text
          if kw.isEmpty = false then
            .addRecords (kw.map fun r =>
              { r with matchedText := if r.matchedText = "" then text else r.matchedText })
          else
            match handleUserQuestions text with
            | some msg => .help msg
            | none => .unrecognized

/- ===================== session/record store ===================== -/

/-- The controller states (src/app.js lines 2-7). -/
inductive RecState where
  | stopped : RecState
  | starting : RecState
  | recording : RecState
  | pausing : RecState
deriving DecidableEq

/-- An issue record (src/app.js lines 1969-1977).  The id and the timestamp
both come from the clock at creation (epoch milliseconds); the ISO-8601
timestamp string is represented by its millisecond value, which is what the
de-duplication check reads back via `new Date(...).getTime()`. -/
structure IssueRecord where
  id : Nat
  timestamp : Nat
  type : String
  subType : String
  originalText : String
  sessionId : Nat
  sessionName : String
deriving DecidableEq

/-- A test session (src/app.js lines 2023-2029); times in epoch ms. -/
structure TestSession where
  id : Nat
  name : String
  startTime : Nat
  endTime : Option Nat
  recordCount : Nat
deriving DecidableEq

/-- The mutable fields of the recorder the store operations touch. -/
structure RecorderState where
  state : RecState
  isRecording : Bool
  testData : List IssueRecord
  testSessions : List TestSession
  currentSession : Option TestSession
deriving DecidableEq

/-- The function `getCurrentSessionRecords` (src/app.js lines 2152-2155). -/
def getCurrentSessionRecords (st : RecorderState) : List IssueRecord :=
  match st.currentSession with
  | none => []
  | some cs => st.testData.filter fun r => r.sessionId == cs.id

/-- The de-duplication test of `addRecord` (src/app.js lines 1956-1962):
some record of the current session has the same type and subType and was
created less than 5000 ms before `now`.  Nat subtraction truncates at zero,
which agrees with the JS comparison also when the stored timestamp is in
the future (a negative difference is below 5000 in JS as well). -/
def hasRecentDuplicate (now : Nat) (ty sub : String) (st : RecorderState) : Bool :=
  (getCurrentSessionRecords st).any fun r =>
    r.type == ty && r.subType == sub && now - r.timestamp < 5000

/-- The record object built by `addRecord` (src/app.js lines 1969-1977). -/
def newRecord (now : Nat) (ty sub originalText : String) (cs : TestSession) :
    IssueRecord :=
  { id := now, timestamp := now, type := ty, subType := sub,
    originalText := originalText, sessionId := cs.id, sessionName := cs.name }

/-- The function `addRecord` (src/app.js lines 1952-1983): no-op without an
open session, no-op on a recent duplicate, else append one record. -/
def addRecord (now : Nat) (ty sub originalText : String) (st : RecorderState) :
    RecorderState :=
  match st.currentSession with
  | none => st
  | some cs =>
      if hasRecentDuplicate now ty sub st then st
      else { st with testData := st.testData ++ [newRecord now ty sub originalText cs] }

/-- The function `deleteLastRecord` (src/app.js lines 1985-1992): pop the
most recently appended record of the whole store (no session scoping); on
an empty store nothing changes. -/
def deleteLastRecord (st : RecorderState) : RecorderState :=
  { st with testData := st.testData.dropLast }

/-- The store effect of one `processVoiceInput` call at time `now`:
the delete action pops the last record, classification results are handed
to `addRecord` in order, help and unrecognized leave the store unchanged. -/
def applyVoiceInput (now : Nat) (text : String) (st : RecorderState) : RecorderState :=
  match processVoiceInput text with
  | .deleteLast => deleteLastRecord st
  | .addRecords rs => rs.foldl (fun s r => addRecord now r.type r.subType r.matchedText s) st
  | .help _ => st
  | .unrecognized => st

/-- The function `startTest` (src/app.js lines 2007-2035): a no-op unless
stopped and not recording; else open a fresh session whose id and start
time come from the clock (the name string is produced by
`generateSessionName` from the same clock and is taken here as a
parameter), and settle in the recording state. -/
def startTest (now : Nat) (name : String) (st : RecorderState) : RecorderState :=
  if st.isRecording = true ∨ st.state ≠ RecState.stopped then st
  else
    { st with
      state := RecState.recording,
      isRecording := true,
      currentSession := some
        { id := now, name := name, startTime := now, endTime := none, recordCount := 0 } }

/-- The function `pauseTest` (src/app.js lines 2072-2085): a no-op unless
recording; else stop the ticker and audio and settle in the stopped state
without touching the current session or the history. -/
def pauseTest (st : RecorderState) : RecorderState :=
  if st.isRecording = false ∨ st.state ≠ RecState.recording then st
  else { st with state := RecState.stopped, isRecording := false }

/-- The function `stopTest` (src/app.js lines 2087-2110): returns at once
unless recording; else seal the current session (endTime from the clock,
recordCount from `getCurrentSessionRecords`), append a copy of it to the
session history, and settle in the stopped state.  The current session
keeps pointing at the sealed session. -/
def stopTest (now : Nat) (st : RecorderState) : RecorderState :=
  if st.isRecording = false then st
  else
    match st.currentSession with
    | some cs =>
        let sealed :=
          { cs with endTime := some now,
                    recordCount := (getCurrentSessionRecords st).length }
        { st with
          state := RecState.stopped, isRecording := false,
          currentSession := some sealed,
          testSessions := st.testSessions ++ [sealed] }
    | none => { st with state := RecState.stopped, isRecording := false }

/- ===================== WebSocket reconnect policy ===================== -/

/-- The retry cap `maxReconnectAttempts` (src/app.js line 43). -/
def maxReconnectAttempts : Nat := 3

/-- What one close event or reconnect decision produces. -/
inductive ReconnectEffect where
  | scheduleReconnect : Nat → ReconnectEffect
  | connectionFailed : ReconnectEffect
deriving DecidableEq

/-- The function `handleWebSocketReconnect` (src/app.js lines 1324-1335):
below the cap, increment the counter and schedule a reconnect after
`2000 * counter` ms (the counter already incremented); at the cap, report
the terminal connection failure and schedule nothing. -/
def handleWebSocketReconnect (attempts : Nat) : Nat × ReconnectEffect :=
  if attempts < maxReconnectAttempts then
    (attempts + 1, ReconnectEffect.scheduleReconnect (2000 * (attempts + 1)))
  else
    (attempts, ReconnectEffect.connectionFailed)

/-- The classification of a close event in the `onclose` handler
(src/app.js lines 953-982). -/
inductive CloseHandling where
  | authFailureNoRetry : CloseHandling
  | rateLimitDelayedRetry : CloseHandling
  | cleanClose : CloseHandling
  | abnormalRetry : CloseHandling
deriving DecidableEq

/-- The close-code dispatch of the `onclose` handler (src/app.js lines
964-981): 4402 is a terminal auth failure, 1006 or a connection-limit
reason retries after the fixed 5 s delay, 1000 is a clean close, anything
else reconnects at once through `handleWebSocketReconnect`. -/
def classifyClose (code : Nat) (reason : String) : CloseHandling :=
  if code = 4402 then CloseHandling.authFailureNoRetry
  else if code = 1006 ∨ strContains reason "over max connect limit" = true then
    CloseHandling.rateLimitDelayedRetry
  else if code = 1000 then CloseHandling.cleanClose
  else CloseHandling.abnormalRetry

/-- Effects produced by a run of consecutive abnormal closes with no
successful open in between (the open handler would reset the counter,
src/app.js line 943): each close invokes `handleWebSocketReconnect` on the
current counter. -/
def abnormalCloseTrace (attempts : Nat) : Nat → List ReconnectEffect
  | 0 => []
  | n + 1 =>
      let step := handleWebSocketReconnect attempts
      step.2 :: abnormalCloseTrace step.1 n

/-- Whether an effect is a scheduled reconnect attempt. -/
def isSchedule : ReconnectEffect → Bool
  | ReconnectEffect.scheduleReconnect _ => true
  | ReconnectEffect.connectionFailed => false

/-- Number of scheduled reconnect attempts in a list of effects. -/
def countSchedules (tr : List ReconnectEffect) : Nat :=
  (tr.filter isSchedule).length

/- ===================== concrete sample states ===================== -/

/-- A sample open test session. -/
def demoSession : TestSession :=
  { id := 500, name := "测试_20250101_000000", startTime := 500,
    endTime := none, recordCount := 0 }

/-- A recording state with the sample session open and an empty store. -/
def demoState : RecorderState :=
  { state := RecState.recording, isRecording := true, testData := [],
    testSessions := [], currentSession := some demoSession }

/-- A record belonging to the open sample session. -/
def demoRec : IssueRecord :=
  { id := 600, timestamp := 600, type := "安全接管", subType := "压线",
    originalText := "压线", sessionId := 500, sessionName := "测试_20250101_000000" }

/-- A record belonging to a different, historical session. -/
def demoRecOther : IssueRecord :=
  { id := 700, timestamp := 700, type := "体验问题", subType := "重刹",
    originalText := "重刹", sessionId := 400, sessionName := "旧会话" }

/-- The recording state holding one record of the open session followed by
one record of another session (the latter appended last). -/
def demoState2 : RecorderState :=
  { demoState with testData := [demoRec, demoRecOther] }

/-- A stopped state with no open session. -/
def stoppedNoSession : RecorderState :=
  { state := RecState.stopped, isRecording := false, testData := [],
    testSessions := [], currentSession := none }

/- ===================== theorems ===================== -/

/-- Helper: one effect prepended to a trace adds one to the schedule count
exactly when it is a scheduled attempt. -/
theorem countSchedules_cons (e : ReconnectEffect) (tr : List ReconnectEffect) :
    countSchedules (e :: tr) =
      (if isSchedule e = true then 1 else 0) + countSchedules tr := by
  by_cases h : isSchedule e = true <;>
    simp [countSchedules, List.filter_cons, h, Nat.add_comm]

/-- Helper: the number of scheduled reconnect attempts produced by `n`
consecutive abnormal closes starting from counter `a` is capped by the
remaining budget. -/
theorem countSchedules_abnormalCloseTrace (n a : Nat) :
    countSchedules (abnormalCloseTrace a n) = min n (maxReconnectAttempts - a) := by
  induction n generalizing a with
  | zero => simp [abnormalCloseTrace, countSchedules]
  | succ n ih =>
      by_cases h : a < maxReconnectAttempts
      · have hstep : abnormalCloseTrace a (n + 1)
            = ReconnectEffect.scheduleReconnect (2000 * (a + 1))
                :: abnormalCloseTrace (a + 1) n := by
          simp [abnormalCloseTrace, handleWebSocketReconnect, if_pos h]
        rw [hstep, countSchedules_cons, ih (a + 1)]
        rw [if_pos (show isSchedule (ReconnectEffect.scheduleReconnect (2000 * (a + 1))) = true from rfl)]
        omega
      · have hstep : abnormalCloseTrace a (n + 1)
            = ReconnectEffect.connectionFailed :: abnormalCloseTrace a n := by
          simp [abnormalCloseTrace, handleWebSocketReconnect, if_neg h]
        rw [hstep, countSchedules_cons, ih a]
        rw [if_neg (show ¬ isSchedule ReconnectEffect.connectionFailed = true by decide)]
        omega

/-- C5: under consecutive abnormal closes with no successful open in
between, four closes produce exactly three scheduled reconnect attempts
with delays 2000 ms, 4000 ms, 6000 ms followed by the terminal
connection-failed report; in general at most three attempts are ever
scheduled; and a generic abnormal close code (neither 4402, 1006, 1000 nor
a connection-limit reason) is indeed routed to the reconnect handler. -/
theorem reconnect_policy_capped_at_three :
    abnormalCloseTrace 0 4 =
      [ReconnectEffect.scheduleReconnect 2000, ReconnectEffect.scheduleReconnect 4000,
       ReconnectEffect.scheduleReconnect 6000, ReconnectEffect.connectionFailed]
    ∧ (∀ n : Nat, countSchedules (abnormalCloseTrace 0 n) = min n 3)
    ∧ classifyClose 1011 "" = CloseHandling.abnormalRetry :=
  ⟨by decide, fun n => by simpa using countSchedules_abnormalCloseTrace n 0, by decide⟩

/-- C1 counterexample: at the sample 0.5 the code produces 16383 while the
spec formula round(s * 32768) clamped produces 16384, so the stated
characterisation of the conversion fails. -/
theorem pcm16_round_spec_counterexample :
    pcm16Sample (1/2) = 16383 ∧ pcm16SpecRound (1/2) = 16384
    ∧ pcm16Sample (1/2) ≠ pcm16SpecRound (1/2) := by
  have h1 : pcm16Sample (1/2) = 16383 := by
    norm_num [pcm16Sample, clampUnit, truncToZero]
  have h2 : pcm16SpecRound (1/2) = 16384 := by
    norm_num [pcm16SpecRound, round_eq]
  exact ⟨h1, h2, by rw [h1, h2]; decide⟩

/-- C1 amended: the conversion clamps the sample to [-1, 1] and truncates
s * 32768 (negative side) or s * 32767 (nonnegative side) toward zero; the
output always lies in [-32768, 32767] and the stated boundary values hold
(1 maps to 32767, -1 to -32768, 0 to 0) — but the output is not
round(s * 32768) clamped. -/
theorem pcm16Sample_range_and_boundaries (s : ℚ) :
    (-32768 ≤ pcm16Sample s ∧ pcm16Sample s ≤ 32767)
    ∧ pcm16Sample 1 = 32767 ∧ pcm16Sample (-1) = -32768 ∧ pcm16Sample 0 = 0 := by
  refine ⟨?_, ?_, ?_, ?_⟩
  · have hc1 : (-1 : ℚ) ≤ clampUnit s := le_max_left _ _
    have hc2 : clampUnit s ≤ 1 := max_le (by norm_num) (min_le_left _ _)
    unfold pcm16Sample truncToZero
    set c := clampUnit s with hc
    by_cases hneg : c < 0
    · rw [if_pos hneg]
      have hq : ¬ (0 ≤ c * 32768) := by nlinarith
      rw [if_neg hq]
      constructor
      · have hle : ((-32768 : ℤ) : ℚ) ≤ c * 32768 := by push_cast; nlinarith
        have := Int.ceil_mono hle
        rwa [Int.ceil_intCast] at this
      · have hle : c * 32768 ≤ ((0 : ℤ) : ℚ) := by push_cast; nlinarith
        have := Int.ceil_mono hle
        rw [Int.ceil_intCast] at this
        omega
    · rw [if_neg hneg]
      have h0 : (0 : ℚ) ≤ c := le_of_not_lt hneg
      have hq : (0 : ℚ) ≤ c * 32767 := by nlinarith
      rw [if_pos hq]
      constructor
      · have := Int.floor_nonneg.mpr hq
        omega
      · have hle : c * 32767 ≤ ((32767 : ℤ) : ℚ) := by push_cast; nlinarith
        have := Int.floor_mono hle
        rwa [Int.floor_intCast] at this
  · norm_num [pcm16Sample, clampUnit, truncToZero]
  · norm_num [pcm16Sample, clampUnit, truncToZero, Int.ceil_eq_iff]
  · norm_num [pcm16Sample, clampUnit, truncToZero]

/-- C2 counterexample: the input 安全接管-压线，效率接管-卡死 does not yield
two records via the delimiter strategy; direct type matching fires first
(the normalized text contains the category name 安全接管) and yields a
single record of type and subType 安全接管. -/
theorem delimiter_input_direct_match_counterexample :
    processVoiceInput "安全接管-压线，效率接管-卡死" =
      VoiceAction.addRecords
        [⟨"安全接管", "安全接管", "安全接管-压线，效率接管-卡死"⟩] := by decide

/-- C2 amended: on the input 安全接管-压线，效率接管-卡死 direct type
matching wins and produces the sole record (安全接管, 安全接管); the
delimiter strategy is never reached, although `keywordRecognitionMultiple`
itself, applied to this input, would return exactly the two records with
subTypes 压线 and 卡死. -/
theorem delimiter_input_precedence :
    directTypeMatching "安全接管-压线，效率接管-卡死" = some ("安全接管", "安全接管")
    ∧ processVoiceInput "安全接管-压线，效率接管-卡死" =
        VoiceAction.addRecords
          [⟨"安全接管", "安全接管", "安全接管-压线，效率接管-卡死"⟩]
    ∧ keywordRecognitionMultiple "安全接管-压线，效率接管-卡死" =
        [⟨"安全接管", "压线", "安全接管-压线"⟩,
         ⟨"效率接管", "卡死", "效率接管-卡死"⟩] := by decide

/-- C7: the input 车子画龙又重刹 passes direct matching without a hit and
is classified by the smart multi-pattern strategy into exactly two
ExperienceIssue (体验问题) results, 画龙 and 重刹, each contributed by one
matching pattern; applied to an open session they are stored as two
records. -/
theorem smart_multi_pattern_two_records :
    directTypeMatching "车子画龙又重刹" = none
    ∧ smartRecognitionMultiple "车子画龙又重刹" =
        [⟨"体验问题", "画龙", "画龙"⟩, ⟨"体验问题", "重刹", "重刹"⟩]
    ∧ processVoiceInput "车子画龙又重刹" =
        VoiceAction.addRecords
          [⟨"体验问题", "画龙", "画龙"⟩, ⟨"体验问题", "重刹", "重刹"⟩]
    ∧ ((applyVoiceInput 1000 "车子画龙又重刹" demoState).testData.map
        fun r => (r.type, r.subType))
        = [("体验问题", "画龙"), ("体验问题", "重刹")] := by decide

/-- C3 counterexample: one multi-pattern utterance appends two distinct
records in the same `processVoiceInput` invocation, and both carry the same
id (the shared millisecond clock value), so stored ids are not unique. -/
theorem duplicate_record_ids_counterexample :
    ((applyVoiceInput 1000 "车子画龙又重刹" demoState).testData.map
        fun r => (r.id, r.subType)) = [(1000, "画龙"), (1000, "重刹")]
    ∧ ¬ ((applyVoiceInput 1000 "车子画龙又重刹" demoState).testData.Pairwise
        fun a b => a.id ≠ b.id) := by decide

/-- Helper: the duplicate test, under an open session, holds exactly when
some stored record of that session has the same type and subType and a
timestamp less than 5000 ms old. -/
theorem hasRecentDuplicate_iff {st : RecorderState} {cs : TestSession}
    (hcs : st.currentSession = some cs) (now : Nat) (ty sub : String) :
    hasRecentDuplicate now ty sub st = true ↔
    ∃ r ∈ st.testData, r.sessionId = cs.id ∧ r.type = ty ∧ r.subType = sub ∧
      now - r.timestamp < 5000 := by
  simp only [hasRecentDuplicate, getCurrentSessionRecords, hcs, List.any_eq_true,
    List.mem_filter, Bool.and_eq_true, beq_iff_eq, decide_eq_true_eq]
  constructor
  · rintro ⟨r, ⟨hr, hsid⟩, ⟨hty, hsub⟩, ht⟩
    exact ⟨r, hr, hsid, hty, hsub, ht⟩
  · rintro ⟨r, hr, hsid, hty, hsub, ht⟩
    exact ⟨r, ⟨hr, hsid⟩, ⟨hty, hsub⟩, ht⟩

/-- Helper: with an open session, a positive duplicate test suppresses the
candidate entirely. -/
theorem addRecord_of_dup {st : RecorderState} {cs : TestSession}
    (hcs : st.currentSession = some cs) {now : Nat} {ty sub txt : String}
    (hdup : hasRecentDuplicate now ty sub st = true) :
    addRecord now ty sub txt st = st := by
  unfold addRecord
  rw [hcs]
  simp [hdup]

/-- Helper: with an open session, a negative duplicate test appends exactly
the one freshly built record. -/
theorem addRecord_of_not_dup {st : RecorderState} {cs : TestSession}
    (hcs : st.currentSession = some cs) {now : Nat} {ty sub txt : String}
    (hdup : hasRecentDuplicate now ty sub st = false) :
    addRecord now ty sub txt st =
      { st with testData := st.testData ++ [newRecord now ty sub txt cs] } := by
  unfold addRecord
  rw [hcs]
  simp [hdup]

/-- C3 amended: a record id equals the clock value at its creation, so one
`addRecord` call at a time strictly later than every stored id appends at
most one record and preserves pairwise distinctness of ids; uniqueness
fails only across calls sharing the same millisecond, as in one
multi-pattern utterance. -/
theorem addRecord_preserves_id_uniqueness
    (st : RecorderState) (now : Nat) (ty sub txt : String)
    (hfresh : ∀ r ∈ st.testData, r.id < now)
    (hdistinct : st.testData.Pairwise fun a b => a.id ≠ b.id) :
    ((addRecord now ty sub txt st).testData.Pairwise fun a b => a.id ≠ b.id)
    ∧ ∀ r ∈ (addRecord now ty sub txt st).testData,
        r ∈ st.testData ∨ r.id = now := by
  cases hcs : st.currentSession with
  | none =>
      unfold addRecord
      rw [hcs]
      exact ⟨hdistinct, fun r hr => Or.inl hr⟩
  | some cs =>
      cases hdup : hasRecentDuplicate now ty sub st with
      | true =>
          rw [addRecord_of_dup hcs hdup]
          exact ⟨hdistinct, fun r hr => Or.inl hr⟩
      | false =>
          rw [addRecord_of_not_dup hcs hdup]
          constructor
          · refine List.pairwise_append.mpr ⟨hdistinct, List.pairwise_singleton _ _, ?_⟩
            intro a ha b hb
            rw [List.mem_singleton] at hb
            subst hb
            exact Nat.ne_of_lt (hfresh a ha)
          · intro r hr
            rcases List.mem_append.mp hr with h | h
            · exact Or.inl h
            · rw [List.mem_singleton] at h
              subst h
              exact Or.inr rfl

/-- C3 witness: the uniqueness preservation applied to the sample state at
the concrete time 7. -/
theorem addRecord_preserves_id_uniqueness_witness :
    (∀ r ∈ demoState.testData, r.id < 7)
    ∧ ((addRecord 7 "安全接管" "压线" "压线" demoState).testData.Pairwise
        fun a b => a.id ≠ b.id) :=
  ⟨by simp [demoState],
   (addRecord_preserves_id_uniqueness demoState 7 "安全接管" "压线" "压线"
      (by simp [demoState]) (by simp [demoState])).1⟩

/-- C4: a candidate is suppressed whenever a record with the same type and
subType was added to the current session less than 5000 ms earlier; in a
session with no prior record of the pair, a first add stores one record, a
second add of the same pair within 5000 ms is suppressed, and a third add
5001 ms or more after the first stores a second record. -/
theorem addRecord_dedup_window
    (st : RecorderState) (cs : TestSession) (ty sub txt1 txt2 txt3 : String)
    (t d e : Nat)
    (hcs : st.currentSession = some cs)
    (hclean : ∀ r ∈ st.testData,
      ¬(r.sessionId = cs.id ∧ r.type = ty ∧ r.subType = sub))
    (hd : d < 5000) (he : 5001 ≤ e) :
    (∀ (st2 : RecorderState) (cs2 : TestSession) (now : Nat) (txt : String),
        st2.currentSession = some cs2 →
        (∃ r ∈ st2.testData, r.sessionId = cs2.id ∧ r.type = ty ∧ r.subType = sub ∧
          now - r.timestamp < 5000) →
        addRecord now ty sub txt st2 = st2)
    ∧ (addRecord t ty sub txt1 st).testData.length = st.testData.length + 1
    ∧ addRecord (t + d) ty sub txt2 (addRecord t ty sub txt1 st)
        = addRecord t ty sub txt1 st
    ∧ (addRecord (t + e) ty sub txt3
        (addRecord (t + d) ty sub txt2 (addRecord t ty sub txt1 st))).testData.length
        = st.testData.length + 2 := by
  have part1 : ∀ (st2 : RecorderState) (cs2 : TestSession) (now : Nat) (txt : String),
      st2.currentSession = some cs2 →
      (∃ r ∈ st2.testData, r.sessionId = cs2.id ∧ r.type = ty ∧ r.subType = sub ∧
        now - r.timestamp < 5000) →
      addRecord now ty sub txt st2 = st2 := by
    intro st2 cs2 now txt hcs2 hex
    exact addRecord_of_dup hcs2 ((hasRecentDuplicate_iff hcs2 now ty sub).mpr hex)
  have hdup1 : hasRecentDuplicate t ty sub st = false := by
    rw [Bool.eq_false_iff]
    intro hx
    rcases (hasRecentDuplicate_iff hcs t ty sub).mp hx with ⟨r, hr, hsid, hty, hsub, _⟩
    exact hclean r hr ⟨hsid, hty, hsub⟩
  have h1 : addRecord t ty sub txt1 st
      = { st with testData := st.testData ++ [newRecord t ty sub txt1 cs] } :=
    addRecord_of_not_dup hcs hdup1
  have hcs1 : (addRecord t ty sub txt1 st).currentSession = some cs := by
    rw [h1]; exact hcs
  have hmem : newRecord t ty sub txt1 cs ∈ (addRecord t ty sub txt1 st).testData := by
    rw [h1]
    exact List.mem_append_right _ (List.mem_singleton.mpr rfl)
  have hdup2 : hasRecentDuplicate (t + d) ty sub (addRecord t ty sub txt1 st) = true := by
    refine (hasRecentDuplicate_iff hcs1 (t + d) ty sub).mpr
      ⟨newRecord t ty sub txt1 cs, hmem, rfl, rfl, rfl, ?_⟩
    simpa [newRecord, Nat.add_sub_cancel_left] using hd
  have part3 : addRecord (t + d) ty sub txt2 (addRecord t ty sub txt1 st)
      = addRecord t ty sub txt1 st :=
    addRecord_of_dup hcs1 hdup2
  have hdup3 : hasRecentDuplicate (t + e) ty sub (addRecord t ty sub txt1 st) = false := by
    rw [Bool.eq_false_iff]
    intro hx
    rcases (hasRecentDuplicate_iff hcs1 (t + e) ty sub).mp hx with ⟨r, hr, hsid, hty, hsub, ht⟩
    rw [h1] at hr
    rcases List.mem_append.mp hr with hmem2 | hmem2
    · exact hclean r hmem2 ⟨hsid, hty, hsub⟩
    · rw [List.mem_singleton] at hmem2
      subst hmem2
      simp only [newRecord, Nat.add_sub_cancel_left] at ht
      omega
  have h3 : addRecord (t + e) ty sub txt3 (addRecord t ty sub txt1 st)
      = { (addRecord t ty sub txt1 st) with
          testData := (addRecord t ty sub txt1 st).testData
            ++ [newRecord (t + e) ty sub txt3 cs] } :=
    addRecord_of_not_dup hcs1 hdup3
  refine ⟨part1, ?_, part3, ?_⟩
  · rw [h1]; simp
  · rw [part3, h3, h1]; simp

/-- C4 witness: the de-duplication window exercised on the sample state at
times 10000, 13000 (suppressed) and 16000 (stored). -/
theorem addRecord_dedup_window_witness :
    (addRecord 10000 "安全接管" "压线" "a1" demoState).testData.length
        = demoState.testData.length + 1
    ∧ addRecord (10000 + 3000) "安全接管" "压线" "a2"
        (addRecord 10000 "安全接管" "压线" "a1" demoState)
        = addRecord 10000 "安全接管" "压线" "a1" demoState
    ∧ (addRecord (10000 + 6000) "安全接管" "压线" "a3"
        (addRecord (10000 + 3000) "安全接管" "压线" "a2"
          (addRecord 10000 "安全接管" "压线" "a1" demoState))).testData.length
        = demoState.testData.length + 2 :=
  have h := addRecord_dedup_window demoState demoSession "安全接管" "压线" "a1" "a2" "a3"
    10000 3000 6000 rfl (by simp [demoState]) (by decide) (by decide)
  ⟨h.2.1, h.2.2.1, h.2.2.2⟩

/-- C6: any input containing a delete phrase short-circuits every
classification strategy — the outcome is the delete action, no records are
produced — and the store effect is dropping the most recently appended
record of the whole store, regardless of its session. -/
theorem undo_phrase_short_circuits (text : String) (st : RecorderState) (now : Nat)
    (h : strContains text "删除上一条" = true ∨ strContains text "撤销" = true) :
    processVoiceInput text = VoiceAction.deleteLast
    ∧ applyVoiceInput now text st = { st with testData := st.testData.dropLast } := by
  have hp : processVoiceInput text = VoiceAction.deleteLast := by
    unfold processVoiceInput
    rcases h with h | h <;> simp [h]
  refine ⟨hp, ?_⟩
  unfold applyVoiceInput
  rw [hp]
  rfl

/-- C6 witness: the phrase 请撤销 triggers the delete action on the sample
state, removing the last appended record even though it belongs to a
session other than the current one. -/
theorem undo_phrase_short_circuits_witness :
    strContains "请撤销" "撤销" = true
    ∧ processVoiceInput "请撤销" = VoiceAction.deleteLast
    ∧ applyVoiceInput 9 "请撤销" demoState2
        = { demoState2 with testData := demoState2.testData.dropLast }
    ∧ (applyVoiceInput 9 "请撤销" demoState2).testData = [demoRec]
    ∧ demoRecOther.sessionId ≠ demoSession.id :=
  ⟨by decide,
   (undo_phrase_short_circuits "请撤销" demoState2 9 (Or.inr (by decide))).1,
   (undo_phrase_short_circuits "请撤销" demoState2 9 (Or.inr (by decide))).2,
   by decide, by decide⟩

/-- C9: pausing while recording and then stopping leaves everything as the
pause left it — the stop call returns at once, the session keeps its unset
endTime and is never appended to the history, and no record count is
computed. -/
theorem pause_then_stop_is_frame (st : RecorderState) (t : Nat)
    (h1 : st.isRecording = true) (h2 : st.state = RecState.recording) :
    stopTest t (pauseTest st) = pauseTest st
    ∧ (pauseTest st).currentSession = st.currentSession
    ∧ (pauseTest st).testSessions = st.testSessions
    ∧ (pauseTest st).testData = st.testData := by
  have hp : pauseTest st = { st with state := RecState.stopped, isRecording := false } := by
    unfold pauseTest
    rw [h1, h2]
    simp
  refine ⟨?_, by rw [hp], by rw [hp], by rw [hp]⟩
  rw [hp]
  unfold stopTest
  simp

/-- C9 witness: pause followed by stop on the sample recording state. -/
theorem pause_then_stop_is_frame_witness :
    stopTest 2000 (pauseTest demoState2) = pauseTest demoState2
    ∧ (pauseTest demoState2).currentSession = demoState2.currentSession
    ∧ (pauseTest demoState2).testSessions = demoState2.testSessions :=
  have h := pause_then_stop_is_frame demoState2 2000 rfl rfl
  ⟨h.1, h.2.1, h.2.2.1⟩

/-- Helper: handing any list of classification results to `addRecord` while
no session is open changes nothing. -/
theorem foldl_addRecord_no_session (rs : List ClassResult) (st : RecorderState)
    (now : Nat) (h : st.currentSession = none) :
    rs.foldl (fun s r => addRecord now r.type r.subType r.matchedText s) st = st := by
  induction rs with
  | nil => rfl
  | cons r rest ih =>
      rw [List.foldl_cons]
      have ha : addRecord now r.type r.subType r.matchedText st = st := by
        unfold addRecord
        rw [h]
      rw [ha]
      exact ih

/-- C10: with no open session, `addRecord` is a no-op for every candidate,
so an utterance that classifies successfully while no session is open is
silently discarded. -/
theorem addRecord_requires_open_session
    (now : Nat) (ty sub txt : String) (text : String) (st : RecorderState)
    (h : st.currentSession = none) :
    addRecord now ty sub txt st = st
    ∧ ∀ rs, processVoiceInput text = VoiceAction.addRecords rs →
        applyVoiceInput now text st = st := by
  constructor
  · unfold addRecord
    rw [h]
  · intro rs hrs
    unfold applyVoiceInput
    rw [hrs]
    exact foldl_addRecord_no_session rs st now h

/-- C10 witness: the successfully classifying utterance 安全接管 leaves the
stopped, session-less sample state untouched. -/
theorem addRecord_requires_open_session_witness :
    stoppedNoSession.currentSession = none
    ∧ addRecord 5 "安全接管" "安全接管" "安全接管" stoppedNoSession = stoppedNoSession
    ∧ applyVoiceInput 5 "安全接管" stoppedNoSession = stoppedNoSession :=
  ⟨rfl,
   (addRecord_requires_open_session 5 "安全接管" "安全接管" "安全接管" "安全接管"
      stoppedNoSession rfl).1,
   (addRecord_requires_open_session 5 "安全接管" "安全接管" "安全接管" "安全接管"
      stoppedNoSession rfl).2
     [⟨"安全接管", "安全接管", "安全接管"⟩] (by decide)⟩

/-- C8: stopping while recording seals the current session — endTime set
from the clock, recordCount equal to the number of stored records whose
sessionId matches the session — appends the sealed session to the history
and leaves the record store untouched; a subsequent start at a different
clock value opens a new session whose id differs from the sealed one. -/
theorem stopTest_seals_then_fresh_start
    (st : RecorderState) (cs : TestSession) (t2 t3 : Nat) (nm : String)
    (hrec : st.isRecording = true)
    (hcs : st.currentSession = some cs)
    (hid : t3 ≠ cs.id) :
    (stopTest t2 st).currentSession =
        some { cs with
          endTime := some t2,
          recordCount := (st.testData.filter fun r => r.sessionId == cs.id).length }
    ∧ (stopTest t2 st).testSessions =
        st.testSessions ++ [{ cs with
          endTime := some t2,
          recordCount := (st.testData.filter fun r => r.sessionId == cs.id).length }]
    ∧ (stopTest t2 st).testData = st.testData
    ∧ (startTest t3 nm (stopTest t2 st)).currentSession =
        some { id := t3, name := nm, startTime := t3, endTime := none, recordCount := 0 }
    ∧ ((startTest t3 nm (stopTest t2 st)).currentSession.map TestSession.id)
        ≠ some cs.id := by
  have hstop : stopTest t2 st
      = { st with
          state := RecState.stopped,
          isRecording := false,
          currentSession := some { cs with
            endTime := some t2,
            recordCount := (st.testData.filter fun r => r.sessionId == cs.id).length },
          testSessions := st.testSessions ++ [{ cs with
            endTime := some t2,
            recordCount := (st.testData.filter fun r => r.sessionId == cs.id).length }] } := by
    unfold stopTest
    rw [hrec, hcs]
    simp [getCurrentSessionRecords, hcs]
  have hstart : startTest t3 nm (stopTest t2 st)
      = { (stopTest t2 st) with
          state := RecState.recording,
          isRecording := true,
          currentSession :=
            some { id := t3, name := nm, startTime := t3, endTime := none,
                   recordCount := 0 } } := by
    unfold startTest
    rw [hstop]
    simp
  refine ⟨by rw [hstop], by rw [hstop], by rw [hstop], by rw [hstart], ?_⟩
  rw [hstart]
  simpa using hid

/-- C8 witness: stop at 2000 seals the sample session (one matching stored
record) and a start at 3000 opens a session with the fresh id 3000. -/
theorem stopTest_seals_then_fresh_start_witness :
    (stopTest 2000 demoState2).currentSession =
        some { demoSession with
          endTime := some 2000,
          recordCount := (demoState2.testData.filter
            fun r => r.sessionId == demoSession.id).length }
    ∧ (stopTest 2000 demoState2).testData = demoState2.testData
    ∧ (startTest 3000 "测试_20250101_000100" (stopTest 2000 demoState2)).currentSession =
        some { id := 3000, name := "测试_20250101_000100", startTime := 3000,
               endTime := none, recordCount := 0 }
    ∧ (demoState2.testData.filter fun r => r.sessionId == demoSession.id).length = 1 :=
  have h := stopTest_seals_then_fresh_start demoState2 demoSession 2000 3000
    "测试_20250101_000100" rfl rfl (by decide)
  ⟨h.1, h.2.2.1, h.2.2.2.1, by decide⟩
